import Mathlib

/-!
Verification of the embench-tooling toolchain build driver
(`build_toolchain.py` and `pylib/tooling_core.py`).

The Python source is shallowly embedded: pure string manipulation becomes
Lean functions on `String`/`List Char`; the process-spawning driver becomes
a state-passing model in which the behaviour of each spawned child process
is an input (`ChildRes`), and `sys.exit(1)` / an uncaught exception is the
`Except.error` branch carrying the state at the moment of exit.
-/

namespace Embench

/-- The six ASCII whitespace characters recognised by Python's `str.split()`
and `str.rstrip()` (for the ASCII strings this program handles). -/
def isPySpace (c : Char) : Bool :=
  c = ' ' || c = '\t' || c = '\n' || c = '\r' || c = '\x0b' || c = '\x0c'

def containsPySpace (s : String) : Bool := s.data.any isPySpace

/-- Helper for `pysplit`: accumulates the current field (reversed). -/
def pysplitAux : List Char → List Char → List (List Char)
  | [], acc => if acc = [] then [] else [acc.reverse]
  | c :: cs, acc =>
    if isPySpace c then
      if acc = [] then pysplitAux cs [] else acc.reverse :: pysplitAux cs []
    else pysplitAux cs (c :: acc)

/-- Python `str.split()` with no argument: split on runs of whitespace,
dropping empty fields. -/
def pysplit (s : String) : List String :=
  (pysplitAux s.data []).map (fun l => ⟨l⟩)

/-- Python `str.rstrip()`: drop trailing whitespace. -/
def pyRstrip (s : String) : String :=
  ⟨(s.data.reverse.dropWhile isPySpace).reverse⟩

/-- Python `s.split('=', 1)` together with the `'=' in s` test:
`none` when the string has no `'='`, otherwise the parts before and after
the first `'='`. -/
def splitOnceEq : List Char → Option (List Char × List Char)
  | [] => none
  | c :: cs =>
    if c = '=' then some ([], cs)
    else (splitOnceEq cs).map (fun p => (c :: p.1, p.2))

/-- `arg_to_str` (build_toolchain.py:428).  An argument without `=` is
returned unchanged; otherwise split after the first `=`, and if the second
part whitespace-splits into exactly one field return the argument
unchanged, else surround the second part with double quotation marks. -/
def arg_to_str (arg : String) : String :=
  match splitOnceEq arg.data with
  | none => arg
  | some (k, v) =>
    if (pysplit ⟨v⟩).length = 1 then arg
    else String.mk k ++ "=\"" ++ String.mk v ++ "\""

/-- `arglist_to_str` (build_toolchain.py:448).  Faithful to the source: the
separator is inserted before `arg` when `arg != arglist[0]`, i.e. when the
current *value* differs from the first element's value. -/
def arglist_to_str (arglist : List String) : String :=
  match arglist with
  | [] => ""
  | a0 :: _ =>
    arglist.foldl
      (fun cmd arg => (if arg ≠ a0 then cmd ++ " " else cmd) ++ arg_to_str arg)
      ""

/-- `arglist_to_str` from `pylib/tooling_core.py:109`.  The accumulator is
re-initialised whenever the current element equals the first element; on an
empty list the accumulator variable is never bound and Python raises, which
is modelled by `none`. -/
def tooling_arglist_to_str (arglist : List String) : Option String :=
  match arglist with
  | [] => none
  | a0 :: _ =>
    some (arglist.foldl (fun acc arg => if arg = a0 then arg else acc ++ " " ++ arg) "")

/-- Specification-side rendering for claim C10 (`Modelled from the spec's
words, for comparison only`): the renderings of the elements joined by
exactly one space between consecutive elements. -/
def spaceJoinedRenderings : List String → String
  | [] => ""
  | a :: rest => rest.foldl (fun acc x => acc ++ " " ++ arg_to_str x) (arg_to_str a)

/-- Specification-side plain join for the `tooling_core` variant, which
applies no per-argument rendering. -/
def spaceJoinedRaw : List String → String
  | [] => ""
  | a :: rest => rest.foldl (fun acc x => acc ++ " " ++ x) a

/-! ## Paths -/

/-- `os.path.isabs` for POSIX: the path starts with a slash. -/
def isabs (s : String) : Bool :=
  s.data.head? == some '/'

def endsWithSlash (s : String) : Bool :=
  match s.data.getLast? with
  | some '/' => true
  | _ => false

/-- `os.path.join(a, b)` for POSIX paths. -/
def pjoin (a b : String) : String :=
  if isabs b then b
  else if a = "" ∨ endsWithSlash a then a ++ b
  else a ++ "/" ++ b

/-- The property that a string begins with `'/'` (an absolute POSIX path). -/
def headSlash (s : String) : Prop := ∃ t, s.data = '/' :: t

/-! ## Argument resolution (`get_args` destinations and `validate_args`) -/

/-- The argparse destinations consumed by `validate_args` and the later
stages.  An optional flag the user did not give is `none`; `--experimental`
is `store_const True`, so its absence is modelled by `false`. -/
structure Args where
  triplet : String
  builddir : String := "build"
  installdir : String := "install"
  logdir : String := "logs"
  build_llvm : Bool := false
  arch : Option String := none
  abi : Option String := none
  cpu : Option String := none
  isa_spec : Option String := none
  mode : Option String := none
  float : Option String := none
  endian : Option String := none
  timeout_config : Nat := 120
  timeout_build : Nat := 3600
  timeout_install : Nat := 120
  timeout_build_install : Nat := 3600
  llvm_arch : Option String := none
  experimental : Bool := false
  libc : Option String := none
  target_cflags : Option String := none
  num_cpus : Option Nat := none
  verbose : Bool := false
  clean : Bool := false
deriving DecidableEq, Repr

/-- One entry of the `defaults` catalog in `validate_args`
(build_toolchain.py:248). -/
structure TargetDefaults where
  arch : Option String
  abi : Option String
  cpu : Option String
  isa_spec : Option String
  mode : Option String
  float : Option String
  endian : Option String
  llvm_arch : Option String
  libc : Option String
  experimental : Bool
  target_cflags : Option String
deriving DecidableEq, Repr

/-- The `defaults` catalog of `validate_args`, keyed by triplet. -/
def defaults (triplet : String) : Option TargetDefaults :=
  if triplet = "riscv32-unknown-elf" then
    some ⟨some "rv32imc", some "ilp32", none, some "2.2", none, none, none,
          some "RISCV", some "newlib", false,
          some "-DPREFER_SIZE_OVER_SPEED=1 -Os"⟩
  else if triplet = "riscv64-unknown-elf" then
    some ⟨some "rv64imc", some "lp64", none, none, none, none, none,
          some "RISCV", some "newlib", false,
          some "-DPREFER_SIZE_OVER_SPEED=1 -Os"⟩
  else if triplet = "arm-none-eabi" then
    some ⟨none, none, some "cortex-m4", none, some "thumb", some "soft", none,
          some "ARM", some "newlib", false,
          some "-DHAVE_GNU_LD -DPREFER_SIZE_OVER_SPEED=1 -Os"⟩
  else if triplet = "arc-elf32" then
    some ⟨none, none, some "em", none, none, none, some "little",
          some "ARC", some "newlib", false,
          some "-DPREFER_SIZE_OVER_SPEED=1 -Os"⟩
  else if triplet = "avr" then
    some ⟨none, none, none, none, none, none, none,
          some "AVR", some "avr-libc", true,
          some "-DPREFER_SIZE_OVER_SPEED=1 -Os"⟩
  else if triplet = "mips-elf" then
    some ⟨some "mips32r2", some "32", none, none, none, none, none,
          some "Mips", some "newlib", false,
          some "-DPREFER_SIZE_OVER_SPEED=1 -Os -D__GLIBC_USE\\(...\\)=0"⟩
  else none

/-- `gp[key] = argdict[key] if argdict[key] else default[key]`: the
override wins only when it is truthy, i.e. a non-empty string. -/
def mergeField (override dflt : Option String) : Option String :=
  match override with
  | some s => if s = "" then dflt else some s
  | none => dflt

/-- The per-stage timeouts stored at `gp['timeouts']`. -/
structure Timeouts where
  config : Nat
  build : Nat
  install : Nat
  buildInstall : Nat
deriving DecidableEq, Repr

/-- The global parameter dictionary `gp` after `validate_args` (and after
`create_builddirs` has stored the build directory in `bd`). -/
structure GP where
  triplet : String
  arch : Option String
  abi : Option String
  cpu : Option String
  isa_spec : Option String
  mode : Option String
  float : Option String
  endian : Option String
  llvm_arch : Option String
  libc : Option String
  experimental : Bool
  target_cflags : Option String
  timeouts : Timeouts
  llvm : Bool
  verbose : Bool
  cpus : Nat
  rootdir : String
  id : String
  bd : String
deriving DecidableEq, Repr

/-- `validate_args` (build_toolchain.py:242): reject a triplet outside the
catalog with `sys.exit(1)`, otherwise merge user overrides over the
catalog defaults and fill in the remaining global parameters.
`cpuCount` stands for `os.cpu_count()`; `rootdir` is set by `main` before
`validate_args` runs; `bd` is filled in later by `create_builddirs`. -/
def validate_args (args : Args) (rootdir : String) (cpuCount : Nat) :
    Except Nat GP :=
  match defaults args.triplet with
  | none => .error 1
  | some d =>
    .ok
      { triplet := args.triplet
        arch := mergeField args.arch d.arch
        abi := mergeField args.abi d.abi
        cpu := mergeField args.cpu d.cpu
        isa_spec := mergeField args.isa_spec d.isa_spec
        mode := mergeField args.mode d.mode
        float := mergeField args.float d.float
        endian := mergeField args.endian d.endian
        llvm_arch := mergeField args.llvm_arch d.llvm_arch
        libc := mergeField args.libc d.libc
        experimental := if args.experimental then true else d.experimental
        target_cflags := mergeField args.target_cflags d.target_cflags
        timeouts := ⟨args.timeout_config, args.timeout_build,
                     args.timeout_install, args.timeout_build_install⟩
        llvm := args.build_llvm
        verbose := args.verbose
        cpus := match args.num_cpus with
                | some n => if n = 0 then cpuCount else n
                | none => cpuCount
        rootdir := rootdir
        id := if isabs args.installdir then args.installdir
              else pjoin rootdir args.installdir
        bd := "" }

/-- The `builddir` absolutisation at the head of `create_builddirs`. -/
def set_bd (gp : GP) (builddir : String) : GP :=
  { gp with bd := if isabs builddir then builddir else pjoin gp.rootdir builddir }

/-- The component subdirectories created under the build root by
`create_builddirs` (build_toolchain.py:379), in creation order.  When
`gp['libc']` is `None` the final `os.path.join` raises, modelled by
`none`. -/
def create_builddirs (gp : GP) : Option (List String) :=
  gp.libc.map (fun l =>
    ["binutils", "gcc-stage-1"]
    ++ (if gp.llvm then ["llvm"] else [])
    ++ (if (gp.libc = some "avr-libc") ∨ gp.llvm then [] else ["gcc-stage-2"])
    ++ [l])

/-! ## Target C flags (create_libc, build_toolchain.py:740 and 803) -/

/-- `if cflags: cflags += ' '` followed by appending a fragment. -/
def addFlag (cflags frag : String) : String :=
  (if cflags ≠ "" then cflags ++ " " else cflags) ++ frag

/-- One iteration of the `for opt_arg in ['arch', 'abi', 'cpu', 'endian']`
loop: append `-m<name>=<value>` when the field is truthy. -/
def mfrag (name : String) (v : Option String) (cflags : String) : String :=
  match v with
  | some s => if s = "" then cflags else addFlag cflags ("-m" ++ name ++ "=" ++ s)
  | none => cflags

/-- The target C flags assembled from `base = gp['target_cflags']`:
`-m<opt>=<val>` fragments, the Arm `-m<mode>` and `-mfloat-abi=` fragments,
then the fixed pair of warning-suppression flags. -/
def cflagsFrom (gp : GP) (base : String) : String :=
  let c := mfrag "arch" gp.arch base
  let c := mfrag "abi" gp.abi c
  let c := mfrag "cpu" gp.cpu c
  let c := mfrag "endian" gp.endian c
  let c := match gp.mode with
           | some m => if m = "" then c else addFlag c ("-m" ++ m)
           | none => c
  let c := match gp.float with
           | some f => if f = "" then c else addFlag c ("-mfloat-abi=" ++ f)
           | none => c
  c ++ " -Wno-int-conversion -Wno-implicit-function-declaration"

/-- The flags starting from `gp['target_cflags']`.  When that field is
`None` the Python concatenation raises `TypeError`; that case is
unreachable for a catalog-resolved profile (every entry carries flags),
and `""` stands in for it here. -/
def cflagsFor (gp : GP) : String :=
  cflagsFrom gp (gp.target_cflags.getD "")

/-! ## Configure argument lists -/

/-- One iteration of the optional-argument loops of `create_tool_chain`
(build_toolchain.py:901, 959, 1052): append `--with-<flagname>=<value>`
when the field is truthy. -/
def truthyFlag (flagname : String) (v : Option String) : List String :=
  match v with
  | some s => if s = "" then [] else ["--with-" ++ (flagname ++ ("=" ++ s))]
  | none => []

/-- The optional `--with-…` arguments appended for the fields
`arch, abi, cpu, mode, float, endian, isa_spec` (the last under the
spelled-out flag name `--with-isa-spec`). -/
def optArgs (gp : GP) : List String :=
  truthyFlag "arch" gp.arch ++ truthyFlag "abi" gp.abi
  ++ truthyFlag "cpu" gp.cpu ++ truthyFlag "mode" gp.mode
  ++ truthyFlag "float" gp.float ++ truthyFlag "endian" gp.endian
  ++ truthyFlag "isa-spec" gp.isa_spec

/-- Binutils/GDB configure arguments (build_toolchain.py:880). -/
def binutilsConf (gp : GP) : List String :=
  [ pjoin (pjoin (pjoin gp.rootdir "gnu") "binutils-gdb") "configure",
    "--target=" ++ gp.triplet,
    "--prefix=" ++ gp.id,
    "--sysconfdir=" ++ pjoin gp.id "etc",
    "--localstatedir=" ++ pjoin gp.id "var",
    "--with-sysroot=" ++ pjoin (pjoin gp.id gp.triplet) "sysroot",
    "--disable-gtk-doc",
    "--disable-gtk-doc-html",
    "--disable-doc",
    "--disable-docs",
    "--disable-documentation",
    "--with-fop=no",
    "--disable-multilib",
    "--enable-plugins",
    "--enable-poison-system-directories",
    "--disable-tls",
    "--disable-sim" ]
  ++ optArgs gp

/-- GCC stage 1 configure arguments (build_toolchain.py:919). -/
def gcc1Conf (gp : GP) : List String :=
  [ pjoin (pjoin (pjoin gp.rootdir "gnu") "gcc") "configure",
    "--target=" ++ gp.triplet,
    "--prefix=" ++ gp.id,
    "--sysconfdir=" ++ pjoin gp.id "etc",
    "--localstatedir=" ++ pjoin gp.id "var",
    "--with-sysroot=" ++ pjoin (pjoin gp.id gp.triplet) "sysroot",
    "--disable-shared",
    "--disable-static",
    "--disable-gtk-doc",
    "--disable-gtk-doc-html",
    "--disable-doc",
    "--disable-docs",
    "--disable-documentation",
    "--with-xmlto=no",
    "--with-fop=no",
    "--disable-__cxa_atexit",
    "--with-gnu-ld",
    "--disable-libssp",
    "--disable-multilib",
    "--enable-target-optspace",
    "--disable-libsanitizer",
    "--disable-tls",
    "--disable-libmudflap",
    "--disable-threads",
    "--disable-libquadmath",
    "--disable-libgomp",
    "--without-isl",
    "--without-cloog",
    "--disable-decimal-float",
    "--enable-languages=c",
    "--without-headers",
    "--with-newlib",
    "--disable-largefile",
    "--enable-plugins",
    "--disable-nls",
    "--enable-checking=yes" ]
  ++ optArgs gp

/-- GCC stage 2 configure arguments (build_toolchain.py:1012). -/
def gcc2Conf (gp : GP) : List String :=
  [ pjoin (pjoin (pjoin gp.rootdir "gnu") "gcc") "configure",
    "--with-build-time-tools=" ++ pjoin (pjoin gp.id gp.triplet) "bin",
    "--target=" ++ gp.triplet,
    "--prefix=" ++ gp.id,
    "--sysconfdir=" ++ pjoin gp.id "etc",
    "--localstatedir=" ++ pjoin gp.id "var",
    "--with-sysroot=" ++ pjoin (pjoin gp.id gp.triplet) "sysroot",
    "--disable-shared",
    "--enable-static",
    "--disable-gtk-doc",
    "--disable-gtk-doc-html",
    "--disable-doc",
    "--disable-docs",
    "--disable-documentation",
    "--with-xmlto=no",
    "--with-fop=no",
    "--disable-__cxa_atexit",
    "--with-gnu-ld",
    "--disable-libssp",
    "--disable-multilib",
    "--enable-target-optspace",
    "--disable-libsanitizer",
    "--disable-tls",
    "--disable-libmudflap",
    "--disable-threads",
    "--disable-libquadmath",
    "--disable-libgomp",
    "--without-isl",
    "--without-cloog",
    "--disable-decimal-float",
    "--enable-languages=c",
    "--with-newlib",
    "--disable-largefile",
    "--enable-plugins",
    "--disable-nls",
    "--enable-checking=yes" ]
  ++ optArgs gp

/-- Clang/LLVM cmake configure arguments (build_toolchain.py:983).  When
`gp['llvm_arch']` is `None` the Python concatenation raises; `""` stands
in for that unreachable case, as for `cflagsFor`. -/
def llvmConf (gp : GP) : List String :=
  [ "cmake",
    "-DCMAKE_BUILD_TYPE=Release",
    "-DCMAKE_CROSSCOMPILING=True",
    "-DLLVM_ENABLE_PROJECTS=clang",
    "-DLLVM_OPTIMIZED_TABLEGEN=ON",
    "-DLLVM_ENABLE_ASSERTIONS=ON",
    "-DBUILD_SHARED_LIBS=ON",
    "-DCMAKE_INSTALL_PREFIX=" ++ gp.id,
    "-DLLVM_" ++ ((if gp.experimental then "EXPERIMENTAL_" else "")
        ++ ("TARGETS_TO_BUILD=" ++ gp.llvm_arch.getD "")),
    "-DLLVM_BINUTILS_INCDIR=" ++ pjoin (pjoin (pjoin gp.rootdir "gnu") "binutils-gdb") "include",
    "-DLLVM_DEFAULT_TARGET_TRIPLE=" ++ gp.triplet,
    "-G",
    "Ninja",
    pjoin (pjoin (pjoin gp.rootdir "llvm") "llvm-project") "llvm" ]

/-- The newlib configure arguments shared by the `newlib-nano` and plain
`newlib` branches of `create_libc` (build_toolchain.py:712 and 775; the
two literal lists in the source are identical). -/
def newlibBaseConf (gp : GP) : List String :=
  [ pjoin (pjoin (pjoin gp.rootdir "libs") "newlib") "configure",
    "--target=" ++ gp.triplet,
    "--prefix=" ++ gp.id,
    "--sysconfdir=" ++ pjoin gp.id "etc",
    "--localstatedir=" ++ pjoin gp.id "var",
    "--with-sysroot=" ++ pjoin (pjoin gp.id gp.triplet) "sysroot",
    "--disable-newlib-fvwrite-in-streamio",
    "--disable-newlib-fseek-optimization",
    "--enable-newlib-nano-malloc",
    "--disable-newlib-unbuf-stream-opt",
    "--enable-target-optspace",
    "--enable-newlib-reent-small",
    "--disable-newlib-wide-orient",
    "--disable-newlib-io-float",
    "--enable-newlib-nano-formatted-io",
    "--enable-lite-exit",
    "--disable-newlib-supplied-syscalls" ]

/-- The full newlib / newlib-nano configure argument list: the base list,
the clang tool settings when LLVM is selected, and finally
`CFLAGS_FOR_TARGET=` with the assembled target flags. -/
def newlibFullConf (gp : GP) : List String :=
  newlibBaseConf gp
  ++ (if gp.llvm then
        [ "CC_FOR_TARGET=" ++ (gp.triplet ++ "-clang"),
          "GCC_FOR_TARGET=" ++ (gp.triplet ++ "-clang"),
          "LD_FOR_TARGET=" ++ (gp.triplet ++ "-clang") ]
      else [])
  ++ [ "CFLAGS_FOR_TARGET=" ++ cflagsFor gp ]

/-- AVR LibC configure arguments (build_toolchain.py:679); `buildmc` is the
rstripped output of the preceding `config.guess` run. -/
def avrConf (gp : GP) (buildmc : String) : List String :=
  [ pjoin (pjoin (pjoin gp.rootdir "libs") "avr-libc") "configure",
    "--prefix=" ++ gp.id,
    "--build=" ++ buildmc,
    "--host=avr" ]

/-- compiler-rt cmake configure arguments (build_toolchain.py:838);
`resourceDir` is the output of `clang -print-resource-dir`. -/
def compilerRtConf (gp : GP) (resourceDir : String) : List String :=
  [ "cmake",
    "-DCMAKE_INSTALL_PREFIX=" ++ resourceDir,
    "-DCMAKE_C_COMPILER=" ++ (gp.id ++ "/bin/clang"),
    "-DCMAKE_CXX_COMPILER=" ++ (gp.id ++ "/bin/clang"),
    "-DCMAKE_AR=" ++ (gp.id ++ "/bin/llvm-ar"),
    "-DCMAKE_NM=" ++ (gp.id ++ "/bin/llvm-nm"),
    "-DCMAKE_RANLIB=" ++ (gp.id ++ "/bin/llvm-ranlib"),
    "-DCMAKE_C_COMPILER_TARGET=" ++ gp.triplet,
    "-DCMAKE_CXX_COMPILER_TARGET=" ++ gp.triplet,
    "-DCMAKE_ASM_COMPILER_TARGET=" ++ gp.triplet,
    "-DCMAKE_C_FLAGS=" ++ cflagsFor gp,
    "-DCMAKE_CXX_FLAGS=" ++ cflagsFor gp,
    "-DCMAKE_ASM_FLAGS=" ++ cflagsFor gp,
    "-DCOMPILER_RT_BAREMETAL_BUILD=ON",
    "-DCOMPILER_RT_DEFAULT_TARGET_ONLY=ON",
    "-DLLVM_CONFIG_PATH=" ++ (gp.bd ++ "/llvm/bin/llvm-config"),
    "../../llvm-project/compiler-rt",
    "-G",
    "Ninja",
    pjoin (pjoin (pjoin gp.rootdir "llvm") "llvm-project") "compiler-rt" ]

/-- All configure (and cmake generator) argument lists issued for a run
over profile `gp`, in issue order.  `buildmc` is the rstripped
`config.guess` output and `resourceDir` the `clang -print-resource-dir`
output.  With LLVM and avr-libc together the compiler-rt step raises
`UnboundLocalError` (`cflags` is only bound in the newlib branches), so no
compiler-rt configure is generated in that combination. -/
def configureArglists (gp : GP) (buildmc resourceDir : String) :
    List (List String) :=
  [binutilsConf gp, gcc1Conf gp]
  ++ (if gp.llvm then [llvmConf gp] else [])
  ++ (if gp.libc = some "avr-libc" then [avrConf gp buildmc]
      else [newlibFullConf gp])
  ++ (if gp.llvm ∧ ¬(gp.libc = some "avr-libc")
      then [compilerRtConf gp resourceDir] else [])
  ++ (if (gp.libc = some "avr-libc") ∨ gp.llvm then [] else [gcc2Conf gp])

/-- The `tool_name` values of the C-library stage in invocation order.
For avr-libc with LLVM the compiler-rt step dies on the unbound `cflags`
before configuring anything. -/
def libcComponentNames (gp : GP) : List String :=
  (if gp.libc = some "avr-libc" then ["AVR LibC"]
   else if gp.libc = some "newlib-nano" then ["Newlib nano"]
   else ["Newlib"])
  ++ (if gp.llvm ∧ ¬(gp.libc = some "avr-libc") then ["compiler-rt"] else [])

/-- The `tool_name` values handed to the component build drivers by
`create_tool_chain`, in invocation order. -/
def componentOrder (gp : GP) : List String :=
  ["Binutils", "GCC Stage 1"]
  ++ (if gp.llvm then ["Clang/LLVM"] else [])
  ++ libcComponentNames gp
  ++ (if (gp.libc = some "avr-libc") ∨ gp.llvm then [] else ["GCC Stage 2"])

/-! ## Process runner (`run_command`, build_toolchain.py:461) -/

/-- What the spawned child process does: either it completes within the
timeout with an exit code and captured stdout/stderr, or the wall-clock
timeout expires. -/
inductive ChildRes where
  | completed (returncode : Int) (rstdout rstderr : String)
  | timedOut
deriving DecidableEq, Repr

/-- Observable behaviour of one `run_command` call: the log lines emitted,
in order, and the argument lists actually handed to `subprocess.run`. -/
structure RunLog where
  logs : List String
  spawns : List (List String)
deriving DecidableEq, Repr

/-- `run_command`: log the rendered command when verbose, spawn the child
once, and either return its decoded stdout (exit code zero) or log the
failure diagnostics and terminate the whole run via `sys.exit(1)`
(modelled as `.error 1`). -/
def run_command (verbose : Bool) (arglist : List String) (builddir : String)
    (timeout : Nat) (child : ChildRes) : RunLog × Except Nat String :=
  let l0 : List String := if verbose then [arglist_to_str arglist] else []
  match child with
  | .completed rc out err =>
    if rc ≠ 0 then
      (⟨l0 ++ ["ERROR: failed",
               "Running in directory " ++ builddir,
               "Command was:",
               arglist_to_str arglist,
               out, err],
        [arglist]⟩,
       .error 1)
    else (⟨l0, [arglist]⟩, .ok out)
  | .timedOut =>
    (⟨l0 ++ ["ERROR: timed out after " ++ toString timeout ++ " seconds",
             "Running in directory " ++ builddir,
             "Command was:",
             arglist_to_str arglist],
      [arglist]⟩,
     .error 1)

/-! ## Stateful sequencer model

The sequencer is modelled as a state machine threading the process PATH,
an index into an oracle assigning each spawned child its behaviour, and
the record of spawned commands.  `sys.exit(1)` and uncaught exceptions
are `.error st`: the run stops with the state frozen as it was at that
moment. -/

/-- One recorded spawn: the argument list and the working directory. -/
structure Spawn where
  args : List String
  dir : String
deriving DecidableEq, Repr

structure SeqState where
  path : String
  idx : Nat
  spawned : List Spawn
deriving DecidableEq, Repr

/-- Spawn one child in `dir`: consume the next oracle entry; a non-zero
exit or a timeout makes `run_command` terminate the run. -/
def runCmdSt (oracle : Nat → ChildRes) (arglist : List String) (dir : String)
    (st : SeqState) : Except SeqState (String × SeqState) :=
  let st' : SeqState :=
    { st with idx := st.idx + 1, spawned := st.spawned ++ [⟨arglist, dir⟩] }
  match oracle st.idx with
  | .completed rc out _ => if rc = 0 then .ok (out, st') else .error st'
  | .timedOut => .error st'

/-- Run a list of commands in sequence in one directory, stopping at the
first failure (each `run_command` failure exits the whole run). -/
def runCmds (oracle : Nat → ChildRes) (cmds : List (List String)) (dir : String)
    (st : SeqState) : Except SeqState SeqState :=
  match cmds with
  | [] => .ok st
  | c :: rest =>
    match runCmdSt oracle c dir st with
    | .error st' => .error st'
    | .ok (_, st') => runCmds oracle rest dir st'

/-- The `make` build arguments of `create_gnu_component`
(build_toolchain.py:511): named sub-targets become `all-<target>`, an
absent (or empty, hence falsy) list becomes plain `all`. -/
def makeBuildArgs (cpus : Nat) (makeTargs : Option (List String)) : List String :=
  ["make", "-j", toString cpus]
  ++ (match makeTargs with
      | some ts => if ts = [] then ["all"] else ts.map (fun t => "all-" ++ t)
      | none => ["all"])

/-- The `make` install arguments of `create_gnu_component`
(build_toolchain.py:527). -/
def makeInstallArgs (cpus : Nat) (makeTargs : Option (List String)) : List String :=
  ["make", "-j", toString cpus]
  ++ (match makeTargs with
      | some ts => if ts = [] then ["install"] else ts.map (fun t => "install-" ++ t)
      | none => ["install"])

/-- The post-install commands run only for `tool_name == 'Newlib nano'`
(build_toolchain.py:541): duplicate the static libraries under `_nano`
names and install the nano `newlib.h`. -/
def nanoPostCmds (gp : GP) : List (List String) :=
  [ ["cp", pjoin (pjoin (pjoin gp.id gp.triplet) "lib") "libc.a",
         pjoin (pjoin (pjoin gp.id gp.triplet) "lib") "libc_nano.a"],
    ["cp", pjoin (pjoin (pjoin gp.id gp.triplet) "lib") "libm.a",
         pjoin (pjoin (pjoin gp.id gp.triplet) "lib") "libm_nano.a"],
    ["cp", pjoin (pjoin (pjoin gp.id gp.triplet) "lib") "libg.a",
         pjoin (pjoin (pjoin gp.id gp.triplet) "lib") "libg_nano.a"],
    ["cp", pjoin (pjoin (pjoin gp.id gp.triplet) "lib") "libgloss.a",
         pjoin (pjoin (pjoin gp.id gp.triplet) "lib") "libgloss_nano.a"],
    ["mkdir", "-p", pjoin (pjoin (pjoin gp.id gp.triplet) "include") "newlib-nano"],
    ["cp", pjoin (pjoin (pjoin gp.id gp.triplet) "include") "newlib.h",
         pjoin (pjoin (pjoin gp.id gp.triplet) "include") "newlib-nano"] ]

/-- `create_gnu_component` (build_toolchain.py:497): configure, build and
install in `dir`, plus the Newlib-nano post-install copies. -/
def create_gnu_component (oracle : Nat → ChildRes) (gp : GP)
    (confArglist : List String) (toolName : String) (dir : String)
    (makeTargs : Option (List String)) (st : SeqState) :
    Except SeqState SeqState :=
  runCmds oracle
    ([confArglist, makeBuildArgs gp.cpus makeTargs, makeInstallArgs gp.cpus makeTargs]
     ++ (if toolName = "Newlib nano" then nanoPostCmds gp else []))
    dir st

/-- `create_llvm` (build_toolchain.py:615): configure then a combined
ninja build/install.  The clang/clang++ symlink post-step performs no
process spawn and no PATH change and is not modelled. -/
def create_llvm (oracle : Nat → ChildRes) (gp : GP)
    (confArglist : List String) (dir : String) (st : SeqState) :
    Except SeqState SeqState :=
  runCmds oracle
    [confArglist, ["ninja", "-j", toString gp.cpus, "install"]] dir st

/-- `create_libc` (build_toolchain.py:656): prepend the install tree's
`bin` to PATH, build the selected C library (for avr-libc after a
`config.guess` probe whose rstripped output becomes `--build=`), build
compiler-rt when LLVM is selected, and restore PATH.  The restore is the
last statement of the function, so any earlier `sys.exit(1)` or exception
leaves the prepended PATH in place.  For LLVM together with avr-libc the
compiler-rt argument-list literal is evaluated left to right: the
`clang -print-resource-dir` probe (`subprocess.check_output`, element 1)
is spawned first, and then the reference to the variable `cflags`, which
only the newlib branches bind, raises `UnboundLocalError` — so the probe
child is spawned but no compiler-rt command is ever issued. -/
def create_libc (oracle : Nat → ChildRes) (gp : GP) (st0 : SeqState) :
    Except SeqState SeqState :=
  let oldpath := st0.path
  let st1 : SeqState := { st0 with path := pjoin gp.id "bin" ++ ":" ++ oldpath }
  let inner : Except SeqState SeqState :=
    if gp.libc = some "avr-libc" then
      match runCmdSt oracle
          [pjoin (pjoin (pjoin gp.rootdir "libs") "avr-libc") "config.guess"]
          (pjoin gp.bd "avr-libc") st1 with
      | .error st => .error st
      | .ok (out, st2) =>
        match create_gnu_component oracle gp (avrConf gp (pyRstrip out))
            "AVR LibC" (pjoin gp.bd "avr-libc") none st2 with
        | .error st => .error st
        | .ok st3 =>
          if gp.llvm then
            match runCmdSt oracle [gp.id ++ "/bin/clang", "-print-resource-dir"]
                "" st3 with
            | .error st => .error st
            | .ok (_, st4) => .error st4
          else .ok st3
    else
      let nano := gp.libc = some "newlib-nano"
      match create_gnu_component oracle gp (newlibFullConf gp)
          (if nano then "Newlib nano" else "Newlib")
          (pjoin gp.bd (if nano then "newlib-nano" else "newlib")) none st1 with
      | .error st => .error st
      | .ok st2 =>
        if gp.llvm then
          match runCmdSt oracle [gp.id ++ "/bin/clang", "-print-resource-dir"]
              "" st2 with
          | .error st => .error st
          | .ok (resdir, st3) =>
            create_llvm oracle gp (compilerRtConf gp resdir)
              (pjoin gp.bd "compiler-rt") st3
        else .ok st2
  match inner with
  | .error st => .error st
  | .ok st => .ok { st with path := oldpath }

/-- `create_tool_chain` (build_toolchain.py:871): Binutils, GCC stage 1,
optionally Clang/LLVM, the C library, and GCC stage 2 unless avr-libc or
LLVM rules it out. -/
def create_tool_chain (oracle : Nat → ChildRes) (gp : GP) (st0 : SeqState) :
    Except SeqState SeqState :=
  match create_gnu_component oracle gp (binutilsConf gp) "Binutils"
      (pjoin gp.bd "binutils") (some ["binutils", "ld", "gas", "gdb"]) st0 with
  | .error st => .error st
  | .ok st1 =>
    match create_gnu_component oracle gp (gcc1Conf gp) "GCC Stage 1"
        (pjoin gp.bd "gcc-stage-1")
        (if gp.llvm then some ["target-libgcc"] else none) st1 with
    | .error st => .error st
    | .ok st2 =>
      let afterLlvm : Except SeqState SeqState :=
        if gp.llvm then create_llvm oracle gp (llvmConf gp) (pjoin gp.bd "llvm") st2
        else .ok st2
      match afterLlvm with
      | .error st => .error st
      | .ok st3 =>
        match create_libc oracle gp st3 with
        | .error st => .error st
        | .ok st4 =>
          if (gp.libc = some "avr-libc") ∨ gp.llvm then .ok st4
          else
            create_gnu_component oracle gp (gcc2Conf gp) "GCC Stage 2"
              (pjoin gp.bd "gcc-stage-2") none st4

/-- `main` (build_toolchain.py:1073), observably: ensure the log directory
(during `setup_logging`, before validation), validate the arguments,
create the build directories, run the sequencer, and exit 0 on success
and 1 otherwise.  Returns the directories ensured/created, the spawned
commands, and the process exit status.  `logdirExists` says whether the
log directory already existed (then `create_logdir` creates nothing). -/
def main_model (args : Args) (rootdir : String) (cpuCount : Nat)
    (logdirExists : Bool) (oracle : Nat → ChildRes) (path0 : String) :
    List String × List Spawn × Nat :=
  let logdir := if isabs args.logdir then args.logdir else pjoin rootdir args.logdir
  let logdirs := if logdirExists then [] else [logdir]
  match validate_args args rootdir cpuCount with
  | .error c => (logdirs, [], c)
  | .ok gp =>
    let gp := set_bd gp args.builddir
    let builddirs :=
      (create_builddirs gp).getD [] |>.map (fun d => pjoin gp.bd d)
    match create_tool_chain oracle gp ⟨path0, 0, []⟩ with
    | .error st => (logdirs ++ gp.bd :: builddirs, st.spawned, 1)
    | .ok st => (logdirs ++ gp.bd :: builddirs, st.spawned, 0)

/-! ## The configurable fields and their `--with-…` flags (claim C1) -/

/-- The configurable fields of a target profile. -/
inductive CField where
  | arch | abi | cpu | isa_spec | mode | float | endian
  | llvm_arch | libc | experimental | target_cflags
deriving DecidableEq, Repr

/-- The `--with-<field>=` flag stem corresponding to each field (for
`isa_spec` the source spells the flag `--with-isa-spec`; the last four
fields never produce a flag at all, their stems are listed so that their
absence can be stated). -/
def fieldFlagStem : CField → String
  | .arch => "--with-arch="
  | .abi => "--with-abi="
  | .cpu => "--with-cpu="
  | .isa_spec => "--with-isa-spec="
  | .mode => "--with-mode="
  | .float => "--with-float="
  | .endian => "--with-endian="
  | .llvm_arch => "--with-llvm-arch="
  | .libc => "--with-libc="
  | .experimental => "--with-experimental="
  | .target_cflags => "--with-target-cflags="

/-- The field is absent from the resolved profile (no override and no
catalog default). -/
def fieldAbsent (gp : GP) : CField → Prop
  | .arch => gp.arch = none
  | .abi => gp.abi = none
  | .cpu => gp.cpu = none
  | .isa_spec => gp.isa_spec = none
  | .mode => gp.mode = none
  | .float => gp.float = none
  | .endian => gp.endian = none
  | .llvm_arch => gp.llvm_arch = none
  | .libc => gp.libc = none
  | .experimental => gp.experimental = false
  | .target_cflags => gp.target_cflags = none

/-- All eleven flag stems. -/
def badStems : List String :=
  [ "--with-arch=", "--with-abi=", "--with-cpu=", "--with-isa-spec=",
    "--with-mode=", "--with-float=", "--with-endian=", "--with-llvm-arch=",
    "--with-libc=", "--with-experimental=", "--with-target-cflags=" ]

/-- The string begins with none of the eleven flag stems. -/
def allSafe (a : String) : Prop := ∀ p ∈ badStems, ¬ p.data <+: a.data

/-- A literal head is compatible with no stem in either direction. -/
def litOK (l : String) : Bool :=
  badStems.all (fun p =>
    decide (¬ p.data <+: l.data) && decide (¬ l.data <+: p.data))

theorem not_prefix_of_append {p l x : List Char}
    (h1 : ¬ p <+: l) (h2 : ¬ l <+: p) : ¬ p <+: (l ++ x) := fun hp =>
  (List.prefix_or_prefix_of_prefix hp (List.prefix_append l x)).elim h1 h2

theorem appSafe (l x : String) (h : litOK l = true) : allSafe (l ++ x) := by
  intro p hp
  rw [String.data_append]
  have hb := List.all_eq_true.mp h p hp
  rw [Bool.and_eq_true] at hb
  exact not_prefix_of_append (of_decide_eq_true hb.1) (of_decide_eq_true hb.2)

theorem not_prefix_of_head_ne {p : List Char} {c : Char} {t : List Char}
    (hp : p.head? = some '-') (hc : c ≠ '-') : ¬ p <+: (c :: t) := by
  rintro ⟨s, hs⟩
  cases p with
  | nil => simp at hp
  | cons q qs =>
    rw [List.cons_append] at hs
    rw [List.head?_cons] at hp
    cases hs
    exact hc (Option.some.inj hp)

theorem slashSafe (a : String) (h : headSlash a) : allSafe a := by
  intro p hp hpre
  obtain ⟨t, ht⟩ := h
  rw [ht] at hpre
  have hhead : p.data.head? = some '-' := by
    fin_cases hp <;> rfl
  exact not_prefix_of_head_ne hhead (by decide) hpre

theorem pjoin_head (a b : String) (h : headSlash a) : headSlash (pjoin a b) := by
  obtain ⟨t, ht⟩ := h
  unfold pjoin
  split
  · rename_i hb
    simp only [isabs, beq_iff_eq] at hb
    cases hbd : b.data with
    | nil => rw [hbd] at hb; simp at hb
    | cons c cs =>
      rw [hbd, List.head?_cons] at hb
      exact ⟨cs, by rw [hbd, Option.some.inj hb]⟩
  · split
    · exact ⟨t ++ b.data, by rw [String.data_append, ht]; rfl⟩
    · refine ⟨t ++ '/' :: b.data, ?_⟩
      rw [String.data_append, String.data_append, ht,
          show ("/" : String).data = ['/'] from rfl]
      simp

instance (a : String) : Decidable (allSafe a) := by
  unfold allSafe; infer_instance

theorem binutilsConf_safe (gp : GP) (hr : headSlash gp.rootdir) :
    ∀ a ∈ binutilsConf gp, allSafe a ∨ a ∈ optArgs gp := by
  intro a ha
  rw [binutilsConf] at ha
  rcases List.mem_append.mp ha with h | h
  · left
    fin_cases h <;>
      first
        | decide
        | exact appSafe _ _ (by decide)
        | exact slashSafe _ (by (repeat first | exact hr | apply pjoin_head); done)
  · right; exact h

theorem gcc1Conf_safe (gp : GP) (hr : headSlash gp.rootdir) :
    ∀ a ∈ gcc1Conf gp, allSafe a ∨ a ∈ optArgs gp := by
  intro a ha
  rw [gcc1Conf] at ha
  rcases List.mem_append.mp ha with h | h
  · left
    fin_cases h <;>
      first
        | decide
        | exact appSafe _ _ (by decide)
        | exact slashSafe _ (by (repeat first | exact hr | apply pjoin_head); done)
  · right; exact h

theorem gcc2Conf_safe (gp : GP) (hr : headSlash gp.rootdir) :
    ∀ a ∈ gcc2Conf gp, allSafe a ∨ a ∈ optArgs gp := by
  intro a ha
  rw [gcc2Conf] at ha
  rcases List.mem_append.mp ha with h | h
  · left
    fin_cases h <;>
      first
        | decide
        | exact appSafe _ _ (by decide)
        | exact slashSafe _ (by (repeat first | exact hr | apply pjoin_head); done)
  · right; exact h

theorem llvmConf_safe (gp : GP) (hr : headSlash gp.rootdir) :
    ∀ a ∈ llvmConf gp, allSafe a := by
  intro a ha
  rw [llvmConf] at ha
  fin_cases ha <;>
    first
      | decide
      | exact appSafe _ _ (by decide)
      | exact slashSafe _ (by (repeat first | exact hr | apply pjoin_head); done)

theorem newlibFullConf_safe (gp : GP) (hr : headSlash gp.rootdir) :
    ∀ a ∈ newlibFullConf gp, allSafe a := by
  intro a ha
  rw [newlibFullConf] at ha
  rcases List.mem_append.mp ha with h | h
  · rcases List.mem_append.mp h with h | h
    · rw [newlibBaseConf] at h
      fin_cases h <;>
        first
          | decide
          | exact appSafe _ _ (by decide)
          | exact slashSafe _ (by (repeat first | exact hr | apply pjoin_head); done)
    · by_cases hl : gp.llvm = true
      · rw [if_pos hl] at h
        fin_cases h <;> exact appSafe _ _ (by decide)
      · rw [if_neg hl] at h
        simp at h
  · rw [List.mem_singleton] at h
    subst h
    exact appSafe _ _ (by decide)

theorem avrConf_safe (gp : GP) (bm : String) (hr : headSlash gp.rootdir) :
    ∀ a ∈ avrConf gp bm, allSafe a := by
  intro a ha
  rw [avrConf] at ha
  fin_cases ha <;>
    first
      | decide
      | exact appSafe _ _ (by decide)
      | exact slashSafe _ (by (repeat first | exact hr | apply pjoin_head); done)

theorem compilerRtConf_safe (gp : GP) (rd : String) (hr : headSlash gp.rootdir) :
    ∀ a ∈ compilerRtConf gp rd, allSafe a := by
  intro a ha
  rw [compilerRtConf] at ha
  fin_cases ha <;>
    first
      | decide
      | exact appSafe _ _ (by decide)
      | exact slashSafe _ (by (repeat first | exact hr | apply pjoin_head); done)

theorem truthyFlag_mem (n : String) (v : Option String) (a : String)
    (h : a ∈ truthyFlag n v) :
    ∃ s, v = some s ∧ s ≠ "" ∧ a = "--with-" ++ (n ++ ("=" ++ s)) := by
  cases v with
  | none => rw [truthyFlag] at h; simp at h
  | some s =>
    rw [truthyFlag] at h
    by_cases hs : s = ""
    · rw [if_pos hs] at h; simp at h
    · rw [if_neg hs] at h
      rw [List.mem_singleton] at h
      exact ⟨s, rfl, hs, h⟩

theorem optArgs_mem (gp : GP) (a : String) (h : a ∈ optArgs gp) :
    ∃ s : String, s ≠ "" ∧
      ((gp.arch = some s ∧ a = "--with-" ++ ("arch" ++ ("=" ++ s))) ∨
       (gp.abi = some s ∧ a = "--with-" ++ ("abi" ++ ("=" ++ s))) ∨
       (gp.cpu = some s ∧ a = "--with-" ++ ("cpu" ++ ("=" ++ s))) ∨
       (gp.mode = some s ∧ a = "--with-" ++ ("mode" ++ ("=" ++ s))) ∨
       (gp.float = some s ∧ a = "--with-" ++ ("float" ++ ("=" ++ s))) ∨
       (gp.endian = some s ∧ a = "--with-" ++ ("endian" ++ ("=" ++ s))) ∨
       (gp.isa_spec = some s ∧ a = "--with-" ++ ("isa-spec" ++ ("=" ++ s)))) := by
  simp only [optArgs, List.mem_append, or_assoc] at h
  rcases h with h | h | h | h | h | h | h <;>
    obtain ⟨s, hv, hs, ha⟩ := truthyFlag_mem _ _ _ h
  · exact ⟨s, hs, Or.inl ⟨hv, ha⟩⟩
  · exact ⟨s, hs, Or.inr (Or.inl ⟨hv, ha⟩)⟩
  · exact ⟨s, hs, Or.inr (Or.inr (Or.inl ⟨hv, ha⟩))⟩
  · exact ⟨s, hs, Or.inr (Or.inr (Or.inr (Or.inl ⟨hv, ha⟩)))⟩
  · exact ⟨s, hs, Or.inr (Or.inr (Or.inr (Or.inr (Or.inl ⟨hv, ha⟩))))⟩
  · exact ⟨s, hs, Or.inr (Or.inr (Or.inr (Or.inr (Or.inr (Or.inl ⟨hv, ha⟩)))))⟩
  · exact ⟨s, hs, Or.inr (Or.inr (Or.inr (Or.inr (Or.inr (Or.inr ⟨hv, ha⟩)))))⟩

theorem withEq (t s : String) :
    "--with-" ++ (t ++ ("=" ++ s)) = ("--with-" ++ (t ++ "=")) ++ s := by
  rw [String.append_assoc, String.append_assoc]

theorem optArgs_no_absent_flag (gp : GP) (f : CField) (habs : fieldAbsent gp f)
    (a : String) (h : a ∈ optArgs gp) :
    ¬ (fieldFlagStem f).data <+: a.data := by
  obtain ⟨s, _, hc⟩ := optArgs_mem gp a h
  rcases hc with ⟨hv, rfl⟩ | ⟨hv, rfl⟩ | ⟨hv, rfl⟩ | ⟨hv, rfl⟩ | ⟨hv, rfl⟩ |
    ⟨hv, rfl⟩ | ⟨hv, rfl⟩ <;>
    cases f <;>
      first
        | (simp only [fieldAbsent] at habs; rw [habs] at hv
           exact Option.noConfusion hv)
        | (rw [withEq, String.data_append]
           exact not_prefix_of_append (by decide) (by decide))

theorem stem_mem_badStems (f : CField) : fieldFlagStem f ∈ badStems := by
  cases f <;> decide

theorem mem_ite_nil_right {α} {c : Prop} [Decidable c] {x l : α}
    (h : l ∈ (if c then [x] else ([] : List α))) : l = x := by
  split at h
  · simpa using h
  · simp at h

theorem mem_ite_nil_left {α} {c : Prop} [Decidable c] {x l : α}
    (h : l ∈ (if c then ([] : List α) else [x])) : l = x := by
  split at h
  · simp at h
  · simpa using h

theorem mem_ite_sing {α} {c : Prop} [Decidable c] {x y l : α}
    (h : l ∈ (if c then [x] else [y])) : l = x ∨ l = y := by
  split at h
  · exact Or.inl (by simpa using h)
  · exact Or.inr (by simpa using h)

theorem configureArglists_cases (gp : GP) (bm rd : String) (l : List String)
    (hl : l ∈ configureArglists gp bm rd) :
    l = binutilsConf gp ∨ l = gcc1Conf gp ∨ l = llvmConf gp ∨
    l = avrConf gp bm ∨ l = newlibFullConf gp ∨ l = compilerRtConf gp rd ∨
    l = gcc2Conf gp := by
  rw [configureArglists] at hl
  rcases List.mem_append.mp hl with h | h
  · rcases List.mem_append.mp h with h | h
    · rcases List.mem_append.mp h with h | h
      · rcases List.mem_append.mp h with h | h
        · rcases List.mem_cons.mp h with rfl | h
          · exact Or.inl rfl
          · exact Or.inr (Or.inl (List.mem_singleton.mp h))
        · exact Or.inr (Or.inr (Or.inl (mem_ite_nil_right h)))
      · rcases mem_ite_sing h with rfl | rfl
        · exact Or.inr (Or.inr (Or.inr (Or.inl rfl)))
        · exact Or.inr (Or.inr (Or.inr (Or.inr (Or.inl rfl))))
    · exact Or.inr (Or.inr (Or.inr (Or.inr (Or.inr (Or.inl (mem_ite_nil_right h))))))
  · exact Or.inr (Or.inr (Or.inr (Or.inr (Or.inr (Or.inr (mem_ite_nil_left h))))))

/-- Every configure argument list generated for profile `gp` is free of
the `--with-<field>=` flag of any field absent from `gp`. -/
theorem conf_no_absent_flag (gp : GP) (bm rd : String)
    (hr : headSlash gp.rootdir) (f : CField) (habs : fieldAbsent gp f) :
    ∀ l ∈ configureArglists gp bm rd, ∀ a ∈ l,
      ¬ (fieldFlagStem f).data <+: a.data := by
  intro l hl a ha
  have hsafe : allSafe a ∨ a ∈ optArgs gp := by
    rcases configureArglists_cases gp bm rd l hl with rfl | rfl | rfl | rfl | rfl | rfl | rfl
    · exact binutilsConf_safe gp hr a ha
    · exact gcc1Conf_safe gp hr a ha
    · exact Or.inl (llvmConf_safe gp hr a ha)
    · exact Or.inl (avrConf_safe gp bm hr a ha)
    · exact Or.inl (newlibFullConf_safe gp hr a ha)
    · exact Or.inl (compilerRtConf_safe gp rd hr a ha)
    · exact gcc2Conf_safe gp hr a ha
  rcases hsafe with hs | hs
  · exact hs _ (stem_mem_badStems f)
  · exact optArgs_no_absent_flag gp f habs a hs

/-- Precedence of truthy (non-empty) user overrides over catalog defaults,
for every configurable field. -/
def overridesRespected (args : Args) (gp : GP) : Prop :=
  (∀ s, args.arch = some s → s ≠ "" → gp.arch = some s) ∧
  (∀ s, args.abi = some s → s ≠ "" → gp.abi = some s) ∧
  (∀ s, args.cpu = some s → s ≠ "" → gp.cpu = some s) ∧
  (∀ s, args.isa_spec = some s → s ≠ "" → gp.isa_spec = some s) ∧
  (∀ s, args.mode = some s → s ≠ "" → gp.mode = some s) ∧
  (∀ s, args.float = some s → s ≠ "" → gp.float = some s) ∧
  (∀ s, args.endian = some s → s ≠ "" → gp.endian = some s) ∧
  (∀ s, args.llvm_arch = some s → s ≠ "" → gp.llvm_arch = some s) ∧
  (∀ s, args.libc = some s → s ≠ "" → gp.libc = some s) ∧
  (∀ s, args.target_cflags = some s → s ≠ "" → gp.target_cflags = some s) ∧
  (args.experimental = true → gp.experimental = true)

theorem validate_args_overrides (args : Args) (rootdir : String) (ncpu : Nat)
    (gp : GP) (hok : validate_args args rootdir ncpu = .ok gp) :
    overridesRespected args gp := by
  unfold validate_args at hok
  cases hd : defaults args.triplet with
  | none => rw [hd] at hok; exact Except.noConfusion hok
  | some d =>
    rw [hd] at hok
    injection hok with h
    subst h
    refine ⟨?_, ?_, ?_, ?_, ?_, ?_, ?_, ?_, ?_, ?_, ?_⟩ <;>
      first
        | (intro s hs hne; simp [mergeField, hs, hne])
        | (intro he; simp [he])

def cargsC1 : Args := { triplet := "riscv32-unknown-elf", abi := some "myabi" }

def gpC1 : GP :=
  ⟨"riscv32-unknown-elf", some "rv32imc", some "myabi", none, some "2.2",
   none, none, none, some "RISCV", some "newlib", false,
   some "-DPREFER_SIZE_OVER_SPEED=1 -Os", ⟨120, 3600, 120, 3600⟩,
   false, false, 4, "/r", "/r/install", ""⟩

/-- C1 (counterexample): the claim says a user-supplied override always
takes precedence over the catalog default, but an empty-string override
(`--abi ""`) is falsy in the merge `argdict[key] if argdict[key] else
default[key]`, so the catalog default `ilp32` wins over the supplied
override `""`. -/
theorem C1_counterexample :
    (validate_args { triplet := "riscv32-unknown-elf", abi := some "" } "/r" 4).map
        (fun gp => gp.abi) = .ok (some "ilp32") ∧
    ({ triplet := "riscv32-unknown-elf", abi := some "" } : Args).abi = some "" ∧
    (some "ilp32" : Option String) ≠ some "" := by
  refine ⟨rfl, rfl, by decide⟩

/-- C1 (amended): for every recognized triplet and configurable field, a
non-empty user override takes precedence over the catalog default (an
empty-string override is falsy and falls back to the default); and when a
field is absent from the resolved profile (no truthy override and no
catalog default) no `--with-<field>=` flag for it appears anywhere in the
generated configure argument lists. -/
theorem C1_override_precedence_and_absence
    (args : Args) (rootdir : String) (ncpu : Nat) (gp : GP)
    (hok : validate_args args rootdir ncpu = .ok gp) :
    overridesRespected args gp ∧
    ∀ (builddir bm rd : String) (f : CField),
      headSlash (set_bd gp builddir).rootdir →
      fieldAbsent (set_bd gp builddir) f →
      ∀ l ∈ configureArglists (set_bd gp builddir) bm rd, ∀ a ∈ l,
        ¬ (fieldFlagStem f).data <+: a.data := by
  refine ⟨validate_args_overrides args rootdir ncpu gp hok, ?_⟩
  intro builddir bm rd f hr habs
  exact conf_no_absent_flag _ bm rd hr f habs

theorem C1_witness :
    overridesRespected cargsC1 gpC1 ∧
    ¬ (fieldFlagStem CField.cpu).data <+: ("--target=riscv32-unknown-elf").data :=
  ⟨(C1_override_precedence_and_absence cargsC1 "/r" 4 gpC1 rfl).1,
   (C1_override_precedence_and_absence cargsC1 "/r" 4 gpC1 rfl).2 "build" "bm" "/rd"
     CField.cpu ⟨['r'], rfl⟩ rfl (binutilsConf (set_bd gpC1 "build"))
     (by decide) "--target=riscv32-unknown-elf" (by decide)⟩

/-- The resolved profile for `riscv32-unknown-elf`, no overrides, GNU
family, with root `/r`, build directory `build` and 4 CPUs. -/
def gpRiscv : GP :=
  ⟨"riscv32-unknown-elf", some "rv32imc", some "ilp32", none, some "2.2",
   none, none, none, some "RISCV", some "newlib", false,
   some "-DPREFER_SIZE_OVER_SPEED=1 -Os", ⟨120, 3600, 120, 3600⟩,
   false, false, 4, "/r", "/r/install", "/r/build"⟩

theorem gpRiscv_resolved :
    (validate_args { triplet := "riscv32-unknown-elf" } "/r" 4).map
      (fun gp => set_bd gp "build") = .ok gpRiscv := rfl

/-- C2 (code bug): `create_libc` prepends the install tree's `bin` to
PATH and restores it only as its final statement; on success PATH is
restored, but when the C-library configure command fails, `run_command`
exits the process and the restore is unreachable, leaving the prepended
PATH in place for the failure path. -/
theorem C2_path_restore_unreachable_on_failure :
    ((create_libc (fun _ => ChildRes.completed 0 "" "") gpRiscv
        ⟨"/usr/bin", 0, []⟩).map (fun st => st.path) = .ok "/usr/bin") ∧
    ((create_libc (fun _ => ChildRes.completed 2 "o" "e") gpRiscv
        ⟨"/usr/bin", 0, []⟩).mapError (fun st => st.path)
      = .error "/r/install/bin:/usr/bin") ∧
    "/r/install/bin:/usr/bin" ≠ "/usr/bin" :=
  ⟨rfl, rfl, by decide⟩

/-- C3: resolving `riscv32-unknown-elf` with no overrides under the GNU
family yields architecture `rv32imc`, ABI `ilp32`, ISA-spec `2.2` and C
library `newlib`, and the sequencer builds Binutils, GCC stage 1, Newlib
and GCC stage 2 in exactly that order (three commands each, shown by the
build directories of the twelve spawned commands). -/
theorem C3_riscv32_scenario :
    ∃ gp, validate_args { triplet := "riscv32-unknown-elf" } "/r" 4 = .ok gp ∧
      gp.arch = some "rv32imc" ∧ gp.abi = some "ilp32" ∧
      gp.isa_spec = some "2.2" ∧ gp.libc = some "newlib" ∧
      componentOrder (set_bd gp "build")
        = ["Binutils", "GCC Stage 1", "Newlib", "GCC Stage 2"] ∧
      (create_tool_chain (fun _ => ChildRes.completed 0 "" "")
          (set_bd gp "build") ⟨"/usr/bin", 0, []⟩).map
        (fun st => (st.path, st.spawned.map Spawn.dir))
      = .ok ("/usr/bin",
          ["/r/build/binutils", "/r/build/binutils", "/r/build/binutils",
           "/r/build/gcc-stage-1", "/r/build/gcc-stage-1", "/r/build/gcc-stage-1",
           "/r/build/newlib", "/r/build/newlib", "/r/build/newlib",
           "/r/build/gcc-stage-2", "/r/build/gcc-stage-2", "/r/build/gcc-stage-2"]) :=
  ⟨_, rfl, rfl, rfl, rfl, rfl, rfl, rfl⟩

/-- C4: the component subdirectories created under the build root are
exactly binutils, gcc-stage-1, gcc-stage-2 iff neither LLVM nor avr-libc,
llvm iff LLVM, and exactly one C-library directory named after the
resolved C library. -/
theorem C4_builddirs (gp : GP) (l : String) (ds : List String)
    (hl : gp.libc = some l)
    (hmem : l = "newlib" ∨ l = "newlib-nano" ∨ l = "avr-libc")
    (hds : create_builddirs gp = some ds) :
    "binutils" ∈ ds ∧ "gcc-stage-1" ∈ ds ∧
    (("gcc-stage-2" ∈ ds) ↔ (gp.llvm = false ∧ l ≠ "avr-libc")) ∧
    (("llvm" ∈ ds) ↔ gp.llvm = true) ∧
    ds.filter (fun d => d == "newlib" || d == "newlib-nano" || d == "avr-libc")
      = [l] := by
  rcases hmem with rfl | rfl | rfl <;> cases hv : gp.llvm <;>
    simp only [create_builddirs, hl, hv, Option.map_some'] at hds <;>
    simp only [Option.some.injEq] at hds <;>
    simp only [hv] <;>
    rw [← hds] <;> decide

theorem C4_witness :
    "binutils" ∈ ["binutils", "gcc-stage-1", "gcc-stage-2", "newlib"] ∧
    "gcc-stage-1" ∈ ["binutils", "gcc-stage-1", "gcc-stage-2", "newlib"] ∧
    (("gcc-stage-2" ∈ ["binutils", "gcc-stage-1", "gcc-stage-2", "newlib"])
      ↔ (gpRiscv.llvm = false ∧ "newlib" ≠ "avr-libc")) ∧
    (("llvm" ∈ ["binutils", "gcc-stage-1", "gcc-stage-2", "newlib"])
      ↔ gpRiscv.llvm = true) ∧
    (["binutils", "gcc-stage-1", "gcc-stage-2", "newlib"].filter
      (fun d => d == "newlib" || d == "newlib-nano" || d == "avr-libc"))
      = ["newlib"] :=
  C4_builddirs gpRiscv "newlib" ["binutils", "gcc-stage-1", "gcc-stage-2", "newlib"]
    rfl (Or.inl rfl) rfl

/-- The resolved profile for `avr` with LLVM selected, root `/r`, build
directory `build`, 4 CPUs. -/
def gpAvrLlvm : GP :=
  ⟨"avr", none, none, none, none, none, none, none, some "AVR",
   some "avr-libc", true, some "-DPREFER_SIZE_OVER_SPEED=1 -Os",
   ⟨120, 3600, 120, 3600⟩, true, false, 4, "/r", "/r/install", "/r/build"⟩

theorem gpAvrLlvm_resolved :
    (validate_args { triplet := "avr", build_llvm := true } "/r" 4).map
      (fun gp => set_bd gp "build") = .ok gpAvrLlvm := rfl

/-- C5: selecting LLVM for `avr` (C library avr-libc) still skips GCC
stage 2 — no GCC-stage-2 component, no gcc-stage-2 build directory, and
the thirteen spawned commands end with the `clang -print-resource-dir`
probe after the avr-libc build (the run then dies on the unbound
`cflags`, so no compiler-rt or GCC-stage-2 command follows) — and the
config.guess probe (spawn 8) runs before the avr-libc configure
(spawn 9), whose `--build=` argument consumes the probe's rstripped
output. -/
theorem C5_avr_llvm_skips_gcc2 :
    ∀ outs : Nat → String,
      "GCC Stage 2" ∉ componentOrder gpAvrLlvm ∧
      create_builddirs gpAvrLlvm
        = some ["binutils", "gcc-stage-1", "llvm", "avr-libc"] ∧
      ((create_tool_chain (fun n => ChildRes.completed 0 (outs n) "") gpAvrLlvm
          ⟨"/p", 0, []⟩).mapError
        (fun st => (st.spawned.map Spawn.dir, st.spawned.get? 8, st.spawned.get? 9,
                    st.spawned.get? 12))
        = .error
          (["/r/build/binutils", "/r/build/binutils", "/r/build/binutils",
            "/r/build/gcc-stage-1", "/r/build/gcc-stage-1", "/r/build/gcc-stage-1",
            "/r/build/llvm", "/r/build/llvm",
            "/r/build/avr-libc", "/r/build/avr-libc", "/r/build/avr-libc",
            "/r/build/avr-libc", ""],
           some ⟨["/r/libs/avr-libc/config.guess"], "/r/build/avr-libc"⟩,
           some ⟨avrConf gpAvrLlvm (pyRstrip (outs 8)), "/r/build/avr-libc"⟩,
           some ⟨["/r/install/bin/clang", "-print-resource-dir"], ""⟩)) ∧
      ("--build=" ++ pyRstrip (outs 8)) ∈ avrConf gpAvrLlvm (pyRstrip (outs 8)) :=
  fun outs => ⟨by decide, rfl, rfl, by simp [avrConf]⟩

theorem C5_witness :
    "GCC Stage 2" ∉ componentOrder gpAvrLlvm ∧
    create_builddirs gpAvrLlvm
      = some ["binutils", "gcc-stage-1", "llvm", "avr-libc"] :=
  ⟨(C5_avr_llvm_skips_gcc2 (fun _ => "x86_64-pc-linux-gnu")).1,
   (C5_avr_llvm_skips_gcc2 (fun _ => "x86_64-pc-linux-gnu")).2.1⟩

/-- C6 (counterexample): two children that differ only in their non-zero
exit codes produce identical `run_command` behaviour (same logs, same
spawn record, same process exit), so the failure outcome does not carry
the child's exit code. -/
theorem C6_counterexample :
    run_command false ["tool", "arg"] "/bd" 9 (ChildRes.completed 3 "so" "se")
      = run_command false ["tool", "arg"] "/bd" 9 (ChildRes.completed 5 "so" "se")
    ∧ (3 : Int) ≠ 5 :=
  ⟨rfl, by decide⟩

/-- C6 (amended): `run_command` has exactly three outcomes — exit code
zero returns the captured stdout unaltered; a non-zero exit logs the
failure diagnostics (captured stdout/stderr and the rendered argument
list, but not the exit code) and terminates the run with status 1; a
timeout logs a distinct message and terminates with status 1.  In every
outcome the child is spawned exactly once (no retry). -/
theorem C6_run_command_outcomes (v : Bool) (a : List String) (d : String)
    (t : Nat) :
    (∀ out err, run_command v a d t (.completed 0 out err)
        = (⟨if v then [arglist_to_str a] else [], [a]⟩, .ok out)) ∧
    (∀ rc out err, rc ≠ 0 →
      run_command v a d t (.completed rc out err)
        = (⟨(if v then [arglist_to_str a] else [])
              ++ ["ERROR: failed", "Running in directory " ++ d, "Command was:",
                  arglist_to_str a, out, err], [a]⟩, .error 1)) ∧
    (run_command v a d t .timedOut
        = (⟨(if v then [arglist_to_str a] else [])
              ++ ["ERROR: timed out after " ++ toString t ++ " seconds",
                  "Running in directory " ++ d, "Command was:", arglist_to_str a],
            [a]⟩, .error 1)) ∧
    (∀ rc out err, rc ≠ 0 →
      (run_command v a d t .timedOut).1.logs
        ≠ (run_command v a d t (.completed rc out err)).1.logs) := by
  have hfail : ∀ rc out err, rc ≠ 0 →
      run_command v a d t (.completed rc out err)
        = (⟨(if v then [arglist_to_str a] else [])
              ++ ["ERROR: failed", "Running in directory " ++ d, "Command was:",
                  arglist_to_str a, out, err], [a]⟩, .error 1) := by
    intro rc out err h
    simp [run_command, h]
  refine ⟨fun out err => rfl, hfail, rfl, ?_⟩
  intro rc out err hrc hEq
  rw [hfail rc out err hrc] at hEq
  have hlen := congrArg List.length hEq
  simp only [run_command, List.length_append, List.length_cons] at hlen
  omega

theorem C6_witness :
    run_command true ["t"] "/d" 7 (ChildRes.completed 0 "o" "e")
      = (⟨if true then [arglist_to_str ["t"]] else [], [["t"]]⟩, .ok "o") ∧
    run_command true ["t"] "/d" 7 (ChildRes.completed 2 "o" "e")
      = (⟨(if true then [arglist_to_str ["t"]] else [])
            ++ ["ERROR: failed", "Running in directory " ++ "/d", "Command was:",
                arglist_to_str ["t"], "o", "e"], [["t"]]⟩, .error 1) :=
  ⟨(C6_run_command_outcomes true ["t"] "/d" 7).1 "o" "e",
   (C6_run_command_outcomes true ["t"] "/d" 7).2.1 2 "o" "e" (by decide)⟩

/-- C7 (counterexample): with an unknown triplet the process does exit
with status 1 having spawned nothing, but the log directory has already
been created by the logging setup that precedes validation, so "before
any directory is created" is false on a fresh filesystem. -/
theorem C7_counterexample :
    main_model { triplet := "unknown-triplet" } "/r" 4 false
        (fun _ => ChildRes.completed 0 "" "") "/p"
      = (["/r/logs"], [], 1) ∧
    (["/r/logs"] : List String) ≠ [] :=
  ⟨rfl, by decide⟩

/-- C7 (amended): a triplet outside the catalog makes `validate_args`
exit with status 1, and the run then terminates with exit status 1
having spawned no command and created no build directory — only the log
directory may already have been created by logging setup; a triplet in
the catalog always resolves successfully. -/
theorem C7_unknown_triplet (args : Args) (rootdir : String) (n : Nat)
    (le : Bool) (oracle : Nat → ChildRes) (p : String) :
    (defaults args.triplet = none →
      validate_args args rootdir n = .error 1 ∧
      main_model args rootdir n le oracle p
        = ((if le = true then []
            else [if isabs args.logdir then args.logdir
                  else pjoin rootdir args.logdir]), [], 1)) ∧
    (∀ d, defaults args.triplet = some d →
      (validate_args args rootdir n).toBool = true) := by
  constructor
  · intro h
    constructor
    · rw [validate_args, h]
    · rw [main_model, validate_args, h]
  · intro d hd
    rw [validate_args, hd]
    rfl

theorem C7_witness :
    (validate_args { triplet := "zzz" } "/r" 4 = .error 1 ∧
      main_model { triplet := "zzz" } "/r" 4 true (fun _ => ChildRes.timedOut) "/p"
        = ([], [], 1)) ∧
    (validate_args { triplet := "avr" } "/r" 4).toBool = true :=
  ⟨(C7_unknown_triplet { triplet := "zzz" } "/r" 4 true
      (fun _ => ChildRes.timedOut) "/p").1 rfl,
   (C7_unknown_triplet { triplet := "avr" } "/r" 4 true
      (fun _ => ChildRes.timedOut) "/p").2 _ rfl⟩

/-- The resolved profile for `avr` with the GNU family, root `/r`, build
directory `build`, 4 CPUs. -/
def gpAvrGnu : GP :=
  ⟨"avr", none, none, none, none, none, none, none, some "AVR",
   some "avr-libc", true, some "-DPREFER_SIZE_OVER_SPEED=1 -Os",
   ⟨120, 3600, 120, 3600⟩, false, false, 4, "/r", "/r/install", "/r/build"⟩

theorem gpAvrGnu_resolved :
    (validate_args { triplet := "avr" } "/r" 4).map
      (fun gp => set_bd gp "build") = .ok gpAvrGnu := rfl

/-- C8 (counterexample): for the avr profile the C-library configure
command is the avr-libc configure, and it carries no `CFLAGS_FOR_TARGET`
argument at all — so the warning-suppression pair is not appended there,
contradicting "regardless of which C library is selected". -/
theorem C8_counterexample :
    gpAvrGnu.libc = some "avr-libc" ∧
    ((create_libc (fun _ => ChildRes.completed 0 "bmc" "") gpAvrGnu
        ⟨"/p", 0, []⟩).map (fun st => st.spawned.get? 1)
      = .ok (some ⟨avrConf gpAvrGnu "bmc", "/r/build/avr-libc"⟩)) ∧
    (avrConf gpAvrGnu "bmc").all
      (fun a => !(("CFLAGS_FOR_TARGET=").data.isPrefixOf a.data)) = true :=
  ⟨rfl, rfl, by decide⟩

/-- C8 (amended): for the newlib and newlib-nano C libraries the fixed
pair of warning-suppression flags is appended to the `CFLAGS_FOR_TARGET`
argument of the configure command; the avr-libc configure receives no
`CFLAGS_FOR_TARGET` argument at all. -/
theorem C8_warn_flags (gp : GP) (base : String)
    (hb : gp.target_cflags = some base) :
    ("CFLAGS_FOR_TARGET=" ++ cflagsFrom gp base) ∈ newlibFullConf gp ∧
    ∃ rest, cflagsFrom gp base
      = rest ++ " -Wno-int-conversion -Wno-implicit-function-declaration" := by
  constructor
  · have hc : cflagsFor gp = cflagsFrom gp base := by
      rw [cflagsFor, hb, Option.getD_some]
    rw [newlibFullConf, ← hc]
    simp
  · exact ⟨_, rfl⟩

theorem C8_witness :
    ("CFLAGS_FOR_TARGET=" ++ cflagsFrom gpRiscv "-DPREFER_SIZE_OVER_SPEED=1 -Os")
      ∈ newlibFullConf gpRiscv :=
  (C8_warn_flags gpRiscv "-DPREFER_SIZE_OVER_SPEED=1 -Os" rfl).1

/-- C9 (counterexample): `arg_to_str` does not quote exactly when the
value contains whitespace: `k=a ` has whitespace in its value yet is
returned unquoted (the value splits into one field), while `k=` has no
whitespace in its value yet is quoted (the empty value splits into zero
fields). -/
theorem C9_counterexample :
    (containsPySpace "a " = true ∧ arg_to_str "k=a " = "k=a ") ∧
    (containsPySpace "" = false ∧ arg_to_str "k=" = "k=\"\"" ∧
      ("k=\"\"" : String) ≠ "k=") := by
  decide

/-- C9 (amended): `arg_to_str` leaves an argument without `=` unchanged;
an argument `k=v` is left unchanged iff whitespace-splitting `v` yields
exactly one field, and otherwise the value part is surrounded by double
quotation marks; the quoted rendering is used only for logging — the
argument list handed to process execution is the original unquoted
list. -/
theorem C9_arg_quoting (arg : String) :
    (splitOnceEq arg.data = none → arg_to_str arg = arg) ∧
    (∀ k v, splitOnceEq arg.data = some (k, v) →
      ((pysplit ⟨v⟩).length = 1 → arg_to_str arg = arg) ∧
      ((pysplit ⟨v⟩).length ≠ 1 →
        arg_to_str arg = String.mk k ++ "=\"" ++ String.mk v ++ "\"")) ∧
    (∀ (verbose : Bool) (arglist : List String) (d : String) (t : Nat)
        (child : ChildRes),
      (run_command verbose arglist d t child).1.spawns = [arglist] ∧
      (verbose = true →
        arglist_to_str arglist ∈ (run_command verbose arglist d t child).1.logs)) := by
  refine ⟨?_, ?_, ?_⟩
  · intro h; rw [arg_to_str, h]
  · intro k v h
    exact ⟨fun h1 => by rw [arg_to_str, h]; exact if_pos h1,
           fun h1 => by rw [arg_to_str, h]; exact if_neg h1⟩
  · intro vb al d t child
    constructor
    · cases child with
      | completed rc out err =>
        by_cases h : rc = 0 <;> simp [run_command, h]
      | timedOut => simp [run_command]
    · intro hv
      cases child with
      | completed rc out err =>
        by_cases h : rc = 0 <;> simp [run_command, h, hv]
      | timedOut => simp [run_command, hv]

theorem C9_witness :
    arg_to_str "k=a b" = String.mk "k".data ++ "=\"" ++ String.mk "a b".data ++ "\"" ∧
    (run_command true ["k=a b"] "/d" 5 (ChildRes.completed 0 "" "")).1.spawns
      = [["k=a b"]] :=
  ⟨((C9_arg_quoting "k=a b").2.1 "k".data "a b".data (by decide)).2 (by decide),
   ((C9_arg_quoting "k=a b").2.2 true ["k=a b"] "/d" 5
      (ChildRes.completed 0 "" "")).1⟩

theorem arglist_foldl_no_dup (a0 : String) (l : List String)
    (h : ∀ x ∈ l, x ≠ a0) (acc : String) :
    l.foldl (fun cmd arg => (if arg ≠ a0 then cmd ++ " " else cmd) ++ arg_to_str arg) acc
      = l.foldl (fun acc x => acc ++ " " ++ arg_to_str x) acc := by
  induction l generalizing acc with
  | nil => rfl
  | cons x xs ih =>
    simp only [List.foldl_cons]
    rw [if_pos (h x (List.mem_cons_self x xs))]
    exact ih (fun y hy => h y (List.mem_cons_of_mem x hy)) _

theorem tooling_foldl_no_dup (a0 : String) (l : List String)
    (h : ∀ x ∈ l, x ≠ a0) (acc : String) :
    l.foldl (fun acc arg => if arg = a0 then arg else acc ++ " " ++ arg) acc
      = l.foldl (fun acc x => acc ++ " " ++ x) acc := by
  induction l generalizing acc with
  | nil => rfl
  | cons x xs ih =>
    simp only [List.foldl_cons]
    rw [if_neg (h x (List.mem_cons_self x xs))]
    exact ih (fun y hy => h y (List.mem_cons_of_mem x hy)) _

/-- C10 (counterexample): in `["a", "b", "a"]` the third element equals
the first, so `arglist_to_str` omits the separator before it (producing
`a ba`), and the `tooling_core` variant resets its accumulator (producing
`a`); neither equals the space-join `a b a`. -/
theorem C10_counterexample :
    arglist_to_str ["a", "b", "a"] = "a ba" ∧
    tooling_arglist_to_str ["a", "b", "a"] = some "a" ∧
    spaceJoinedRenderings ["a", "b", "a"] = "a b a" ∧
    ("a ba" : String) ≠ "a b a" ∧
    (some "a" : Option String) ≠ some "a b a" := by
  decide

/-- C10 (amended): for a non-empty argument list none of whose later
elements equals the first element, `arglist_to_str` is the renderings of
the elements joined by exactly one space, and the `tooling_core` variant
is the raw elements joined by exactly one space; an element equal to the
first is instead merged with its neighbour (build_toolchain) or resets
the accumulated string (tooling_core). -/
theorem C10_join (a0 : String) (rest : List String) (h : a0 ∉ rest) :
    arglist_to_str (a0 :: rest) = spaceJoinedRenderings (a0 :: rest) ∧
    tooling_arglist_to_str (a0 :: rest) = some (spaceJoinedRaw (a0 :: rest)) := by
  have h' : ∀ x ∈ rest, x ≠ a0 := fun x hx e => h (e ▸ hx)
  constructor
  · show (a0 :: rest).foldl _ "" = _
    rw [List.foldl_cons, if_neg (fun hh : a0 ≠ a0 => hh rfl), String.empty_append]
    exact arglist_foldl_no_dup a0 rest h' (arg_to_str a0)
  · show some ((a0 :: rest).foldl _ "") = _
    rw [List.foldl_cons, if_pos rfl]
    rw [tooling_foldl_no_dup a0 rest h' a0]
    rfl

theorem C10_witness :
    arglist_to_str ["x", "y"] = spaceJoinedRenderings ["x", "y"] ∧
    tooling_arglist_to_str ["x", "y"] = some (spaceJoinedRaw ["x", "y"]) :=
  C10_join "x" ["y"] (by decide)

end Embench
